import Mathlib

/-!
Shallow embedding of the trading core of the repository
(`src/App.tsx` and `src/constants.tsx`): the trade ledger
(`handleExecuteTrade`, `handleCloseTrade`), the settlement sweep
(the 5-second `setInterval` effect), the autopilot tick (the
10-second `setInterval` effect), and the advisory pipeline
(`generateMarketInsight`).  JavaScript numbers are modelled as
rationals; the trade list, the two per-mode balances and the
safety counters are modelled as an explicit `AppState` record.
-/

namespace Seannai

/-- Account mode, `Mode` in `src/constants.tsx` (TRIAL | LIVE). -/
inductive Mode where
  | TRIAL
  | LIVE
deriving DecidableEq, Repr

/-- Trade side, the `type` field of `Trade` (BUY | SELL). -/
inductive TradeType where
  | BUY
  | SELL
deriving DecidableEq, Repr

/-- Trade status (OPEN | CLOSED), terminal at CLOSED. -/
inductive TradeStatus where
  | OPEN
  | CLOSED
deriving DecidableEq, Repr

/-- The `Trade` record of `src/constants.tsx`.  The random string id is
modelled as a natural number supplied by the caller. -/
structure Trade where
  id : Nat
  pair : String
  type : TradeType
  entryPrice : ℚ
  exitPrice : Option ℚ
  amount : ℚ
  status : TradeStatus
  pnl : Option ℚ
  stopLoss : ℚ
  takeProfit : ℚ
  accountType : Mode
deriving DecidableEq, Repr

/-- The numeric part of `RiskSettings` in `src/constants.tsx` (the proxy
fields play no role in the trading core). -/
structure RiskSettings where
  defaultStopLoss : ℚ
  defaultTakeProfit : ℚ
  maxDrawdown : ℚ
  aiMaxPositionSize : ℚ
  aiRiskPercent : ℚ
deriving DecidableEq, Repr

/-- The two safety alerts raised by the autopilot tick in `src/App.tsx`
(max-consecutive-losses and daily-drawdown kill switches). -/
inductive Alert where
  | maxLosses
  | drawdown
deriving DecidableEq, Repr

/-- The mutable engine state of `src/App.tsx`: the trade list, the two
per-mode balances, the `consecutiveLosses` and `dailyPnL` refs, the
autopilot flag, the active system alert, the selected mode and the
current risk settings. -/
structure AppState where
  trades : List Trade
  trialBalance : ℚ
  liveBalance : ℚ
  consecutiveLosses : Nat
  dailyPnL : ℚ
  isAutoPilot : Bool
  systemAlert : Option Alert
  mode : Mode
  riskSettings : RiskSettings
deriving DecidableEq, Repr

/-- Balance of a given account mode. -/
def modeBalance (m : Mode) (s : AppState) : ℚ :=
  match m with
  | .TRIAL => s.trialBalance
  | .LIVE => s.liveBalance

/-- `currentBalance` in `src/App.tsx`: the balance of the selected mode. -/
def currentBalance (s : AppState) : ℚ :=
  modeBalance s.mode s

/-- Credit `d` to the balance of mode `m` (the `setTrialBalance` /
`setLiveBalance` functional updates). -/
def creditMode (m : Mode) (d : ℚ) (s : AppState) : AppState :=
  match m with
  | .TRIAL => { s with trialBalance := s.trialBalance + d }
  | .LIVE => { s with liveBalance := s.liveBalance + d }

/-- `marketPrices[pair]?.price || fallback`: JavaScript `||` falls back
both when the pair has no quote and when the quoted price is `0`. -/
def quoteOr (prices : String → Option ℚ) (pair : String) (fallback : ℚ) : ℚ :=
  match prices pair with
  | none => fallback
  | some p => if p = 0 then fallback else p

/-- The `newTrade` record built by `handleExecuteTrade`
(`src/App.tsx`): an OPEN trade whose stop-loss and take-profit prices
are snapshotted from the risk settings in effect at open time, fixed to
the current account mode. -/
def newTradeOf (newId : Nat) (pair : String) (type : TradeType)
    (amount price : ℚ) (s : AppState) : Trade :=
  { id := newId
    pair := pair
    type := type
    entryPrice := price
    exitPrice := none
    amount := amount
    status := .OPEN
    pnl := none
    stopLoss := price * (1 - s.riskSettings.defaultStopLoss / 100)
    takeProfit := price * (1 + s.riskSettings.defaultTakeProfit / 100)
    accountType := s.mode }

/-- `handleExecuteTrade` in `src/App.tsx`: builds the new trade with
stop-loss and take-profit prices computed from the live risk settings,
prepends it to the trade list and debits `amount` from the balance of
the current mode.  There is no validation of `amount`. -/
def handleExecuteTrade (newId : Nat) (pair : String) (type : TradeType)
    (amount price : ℚ) (s : AppState) : AppState :=
  let newTrade := newTradeOf newId pair type amount price s
  let s' := { s with trades := newTrade :: s.trades }
  creditMode s.mode (-amount) s'

/-- The signed pnl percentage computed at every settlement site of
`src/App.tsx`: `priceChange = (currentPrice - entryPrice) / entryPrice
* 100`, then negated for a SELL (`isLong` false). -/
def pnlPercentOf (type : TradeType) (entryPrice currentPrice : ℚ) : ℚ :=
  let priceChange := (currentPrice - entryPrice) / entryPrice * 100
  if type = .BUY then priceChange else -priceChange

/-- The realized pnl of a settlement:
`pnlValue = amount * (pnlPercent / 100)`. -/
def pnlValueOf (type : TradeType) (entryPrice currentPrice amount : ℚ) : ℚ :=
  amount * (pnlPercentOf type entryPrice currentPrice / 100)

/-- `handleCloseTrade` in `src/App.tsx`: finds the first trade with the
given id; a missing id or an already-CLOSED trade is a no-op; otherwise
the trade is settled at the latest quote (falling back to its entry
price), the balance of its account mode is credited
`amount + pnlValue`, `dailyPnL` and `consecutiveLosses` are updated and
the trade is replaced in place by its CLOSED copy. -/
def handleCloseTrade (prices : String → Option ℚ) (tradeId : Nat)
    (s : AppState) : AppState :=
  let i := s.trades.findIdx (fun t => t.id == tradeId)
  match s.trades[i]? with
  | none => s
  | some trade =>
    if trade.status = .CLOSED then s
    else
      let currentPrice := quoteOr prices trade.pair trade.entryPrice
      let pnlValue := pnlValueOf trade.type trade.entryPrice currentPrice trade.amount
      let closed : Trade :=
        { trade with status := .CLOSED, exitPrice := some currentPrice, pnl := some pnlValue }
      let s' := creditMode trade.accountType (trade.amount + pnlValue) s
      { s' with
        trades := s.trades.set i closed
        dailyPnL := s'.dailyPnL + pnlValue
        consecutiveLosses := if pnlValue < 0 then s'.consecutiveLosses + 1 else 0 }

/-- `onUpdateRisk` in `src/App.tsx` (the `updateRiskConfiguration`
command): replaces the live risk settings. -/
def onUpdateRisk (newSettings : RiskSettings) (s : AppState) : AppState :=
  { s with riskSettings := newSettings }

/-- One step of the settlement sweep of `src/App.tsx` (the body of the
`trades.map` callback of the 5-second interval together with its side
effects): an OPEN trade whose pnl percentage has hit the live stop-loss
or take-profit threshold is closed, its mode balance is credited
`amount + pnlValue`, and `dailyPnL` and `consecutiveLosses` are
updated; every other trade is kept unchanged. -/
def settleStep (prices : String → Option ℚ) (acc : AppState × List Trade)
    (t : Trade) : AppState × List Trade :=
  let (s, out) := acc
  if t.status = .OPEN then
    let currentPrice := quoteOr prices t.pair t.entryPrice
    let pnlPercent := pnlPercentOf t.type t.entryPrice currentPrice
    if pnlPercent ≤ -s.riskSettings.defaultStopLoss ∨
        s.riskSettings.defaultTakeProfit ≤ pnlPercent then
      let pnlValue := t.amount * (pnlPercent / 100)
      let s' := creditMode t.accountType (t.amount + pnlValue) s
      let s'' := { s' with
        dailyPnL := s'.dailyPnL + pnlValue
        consecutiveLosses := if pnlValue < 0 then s'.consecutiveLosses + 1 else 0 }
      let closed : Trade :=
        { t with status := .CLOSED, pnl := some pnlValue, exitPrice := some currentPrice }
      (s'', out ++ [closed])
    else (s, out ++ [t])
  else (s, out ++ [t])

/-- The settlement sweep of `src/App.tsx` (the 5-second `setInterval`
effect): sweeps every trade in order with `settleStep` and installs the
rebuilt trade list.  Note that the thresholds come from the live
`riskSettings`, not from the `stopLoss` / `takeProfit` prices stored on
the trade. -/
def settleTick (prices : String → Option ℚ) (s : AppState) : AppState :=
  let (s', newTrades) := s.trades.foldl (settleStep prices) (s, [])
  { s' with trades := newTrades }

/-- The three tracked pairs of the autopilot loop in `src/App.tsx`. -/
def autopilotPairs : List String := ["BTC/USDT", "ETH/USDT", "SOL/USDT"]

/-- An advisory action (BUY | SELL | HOLD), the `action` field of
`AIInsight` in `src/constants.tsx`. -/
inductive ActionKind where
  | BUY
  | SELL
  | HOLD
deriving DecidableEq, Repr

/-- A trend signal, the result shape of `QuantEngine.analyzeTrend`. -/
structure Analysis where
  action : ActionKind
  confidence : ℚ
  reason : String
deriving DecidableEq, Repr

/-- Body of the `pairs.forEach` callback of the autopilot tick in
`src/App.tsx`.  The checks (`history`, `hasOpenPosition`,
`currentBalance`) read the state captured by the effect closure (`s`),
while opened trades accumulate in `st`, mirroring the React closure
semantics.  `analyze` and `sizer` stand for `QuantEngine.analyzeTrend`
and `QuantEngine.getSafePositionSize`, whose source file
(`src/logic/quantEngine.ts`) is not part of the embedded sources; the
theorems below hold for every choice of them. -/
def autopilotStep (analyze : List ℚ → Analysis) (sizer : ℚ → ℚ → ℚ → ℚ → ℚ)
    (newId : String → Nat) (history : String → List ℚ)
    (prices : String → Option ℚ) (s : AppState)
    (st : AppState) (pair : String) : AppState :=
  let h := history pair
  if h.length < 50 then st
  else
    let analysis := analyze h
    let currentPrice := (prices pair).getD 0
    let hasOpenPosition := s.trades.any fun t =>
      t.pair == pair && t.status == .OPEN && t.accountType == s.mode
    if analysis.action = .BUY ∧ hasOpenPosition = false then
      let safeAmount := sizer (currentBalance s) currentPrice
        (s.riskSettings.aiRiskPercent / 100) s.riskSettings.aiMaxPositionSize
      if 10 < safeAmount then
        handleExecuteTrade (newId pair) pair .BUY safeAmount currentPrice st
      else st
    else st

/-- The autopilot tick of `src/App.tsx` (the 10-second `setInterval`
effect): the risk gate runs first — consecutive losses, then the daily
drawdown — and on a breach forces autopilot off, raises the alert and
returns without touching the trade list; otherwise the tracked pairs
are scanned for autonomous BUY entries. -/
def autopilotTick (analyze : List ℚ → Analysis) (sizer : ℚ → ℚ → ℚ → ℚ → ℚ)
    (newId : String → Nat) (history : String → List ℚ)
    (prices : String → Option ℚ) (s : AppState) : AppState :=
  if 3 ≤ s.consecutiveLosses then
    { s with isAutoPilot := false, systemAlert := some .maxLosses }
  else
    let drawdownPercent := s.dailyPnL / currentBalance s * 100
    if drawdownPercent ≤ -s.riskSettings.maxDrawdown then
      { s with isAutoPilot := false, systemAlert := some .drawdown }
    else
      autopilotPairs.foldl (autopilotStep analyze sizer newId history prices s) s

/-- Provenance of an insight: `source: 'AI_GEN'` for a validated
external advisory response, `source: 'QUANT_ENGINE'` for the local
fallback branch of `generateMarketInsight`. -/
inductive InsightSource where
  | AI_GEN
  | QUANT_ENGINE
deriving DecidableEq, Repr

/-- The insight returned by `generateMarketInsight`: the `AIInsight`
shape of `src/constants.tsx` plus the provenance tag. -/
structure Insight where
  pair : String
  confidence : ℚ
  action : ActionKind
  reasoning : String
  support : ℚ
  resistance : ℚ
  source : InsightSource
deriving DecidableEq, Repr

/-- The payload of a well-formed external advisory response (the fields
required by the response schema of `generateMarketInsight`). -/
structure InsightData where
  pair : String
  confidence : ℚ
  action : ActionKind
  reasoning : String
  support : ℚ
  resistance : ℚ
deriving DecidableEq, Repr

/-- Possible outcomes of the external advisory request of
`generateMarketInsight`: the promise rejects, or it resolves with an
empty text, with text that fails JSON validation, or with a
well-formed insight payload. -/
inductive ExtOutcome where
  | reject
  | emptyText
  | malformedText
  | valid (d : InsightData)
deriving DecidableEq, Repr

/-- One run of the external advisory request: the (model) time at which
its promise settles and what it settles with. -/
structure ExternalBehavior where
  arrival : ℚ
  outcome : ExtOutcome
deriving DecidableEq, Repr

/-- `TIMEOUT_MS` in `generateMarketInsight` (`src/constants.tsx`). -/
def TIMEOUT_MS : ℚ := 6500

/-- The failure modes caught by the `catch` of
`generateMarketInsight`. -/
inductive AdvErr where
  | latencyTimeout
  | requestFailed
  | emptyResponse
  | malformed
deriving DecidableEq, Repr

/-- The `Promise.race` of the advisory request against the 6500 ms
timer: the request wins only if it settles strictly before the timer
fires; a winning rejection, an empty text or a malformed text are
errors exactly like a timeout. -/
def raceAdvisory (b : ExternalBehavior) : Except AdvErr InsightData :=
  if b.arrival < TIMEOUT_MS then
    match b.outcome with
    | .reject => .error .requestFailed
    | .emptyText => .error .emptyResponse
    | .malformedText => .error .malformed
    | .valid d => .ok d
  else .error .latencyTimeout

/-- The (model) time at which the `Promise.race` of
`generateMarketInsight` settles: the earlier of the request's own
settle time and the 6500 ms timer. -/
def raceSettleTime (b : ExternalBehavior) : ℚ :=
  min b.arrival TIMEOUT_MS

/-- Whether the first character list is an initial segment of the
second. -/
def charsStartWith : List Char → List Char → Bool
  | [], _ => true
  | _ :: _, [] => false
  | a :: as, b :: bs => a == b && charsStartWith as bs

/-- Whether the first character list occurs contiguously inside the
second. -/
def charsContain (sub : List Char) : List Char → Bool
  | [] => sub.isEmpty
  | c :: rest => charsStartWith sub (c :: rest) || charsContain sub rest

/-- JavaScript `s.includes(sub)` (contiguous substring test), used for
the per-asset dispatch on the pair name in `src/constants.tsx`. -/
def includesStr (s sub : String) : Bool :=
  charsContain sub.toList s.toList

/-- The default base price of the fallback branch of
`generateMarketInsight`: `pair.includes('BTC') ? 96500 :
pair.includes('ETH') ? 2650 : 198`. -/
def defaultPrice (pair : String) : ℚ :=
  if includesStr pair "BTC" then 96500
  else if includesStr pair "ETH" then 2650
  else 198

/-- The fixed per-asset volatility constant of the fallback branch:
`pair.includes('BTC') ? 0.02 : 0.04`. -/
def volatilityOf (pair : String) : ℚ :=
  if includesStr pair "BTC" then 2/100 else 4/100

/-- The basic heuristic of the fallback branch when no usable history
is provided: BUY above +2 percent 24h change, SELL below −2 percent,
otherwise HOLD, with confidence fixed at 70.  `change24h` is the
parsed numeric value of the percent string (`parseFloat` of a missing
string yields `0`). -/
def basicHeuristic (change24h : Option ℚ) : Analysis :=
  let changeVal := change24h.getD 0
  { action := if 2 < changeVal then .BUY else if changeVal < -2 then .SELL else .HOLD
    confidence := 70
    reason := "Momentum analysis via 24h price deviation." }

/-- Modelled from the spec: `QuantEngine.analyzeTrend`, defined in
`src/logic/quantEngine.ts`, which is not among the embedded sources.
Per the spec it is a pure function deriving short-term momentum of the
tail of the price sequence relative to a longer baseline, classifying
BUY when the momentum is positive and exceeds a threshold, SELL when
negative beyond the negated threshold, otherwise HOLD, with a
confidence bounded in [0, 100] and monotone in momentum magnitude. -/
def analyzeTrend (history : List ℚ) : Analysis :=
  let avg : List ℚ → ℚ := fun l => l.sum / l.length
  let baseline := avg history
  let tailAvg := avg (history.drop (history.length - 10))
  let momentum := (tailAvg - baseline) / baseline * 100
  if 1/2 < momentum then
    { action := .BUY, confidence := min 100 (50 + momentum * 10)
      reason := "Tail momentum above baseline." }
  else if momentum < -(1/2) then
    { action := .SELL, confidence := min 100 (50 + -momentum * 10)
      reason := "Tail momentum below baseline." }
  else
    { action := .HOLD, confidence := 50
      reason := "No decisive momentum." }

/-- The quantitative fallback branch of `generateMarketInsight`
(`src/constants.tsx`, the `catch` block): base price from the current
quote or a per-asset default, analysis from `QuantEngine.analyzeTrend`
when at least 20 history points exist and from the basic heuristic
otherwise, and support/resistance synthesized as the integer floors of
`basePrice * (1 - volatility)` and `basePrice * (1 + volatility)`. -/
def fallbackInsight (pair : String) (currentPrice : Option ℚ)
    (change24h : Option ℚ) (history : Option (List ℚ)) : Insight :=
  let basePrice :=
    match currentPrice with
    | some p => if p = 0 then defaultPrice pair else p
    | none => defaultPrice pair
  let analysis :=
    match history with
    | some h => if 20 ≤ h.length then analyzeTrend h else basicHeuristic change24h
    | none => basicHeuristic change24h
  let volatility := volatilityOf pair
  { pair := pair
    confidence := analysis.confidence
    action := analysis.action
    reasoning := analysis.reason
    support := (⌊basePrice * (1 - volatility)⌋ : ℤ)
    resistance := (⌊basePrice * (1 + volatility)⌋ : ℤ)
    source := .QUANT_ENGINE }

/-- `generateMarketInsight` in `src/constants.tsx`: race the external
advisory request against the 6500 ms timer; a validated response is
returned tagged `AI_GEN`; every failure (rejection, timeout, empty or
malformed text) is caught and answered by the quantitative fallback,
tagged `QUANT_ENGINE`.  The function is total: no error ever reaches
the caller. -/
def generateMarketInsight (b : ExternalBehavior) (pair : String)
    (currentPrice : Option ℚ) (change24h : Option ℚ)
    (history : Option (List ℚ)) : Insight :=
  match raceAdvisory b with
  | .ok d =>
    { pair := d.pair
      confidence := d.confidence
      action := d.action
      reasoning := d.reasoning
      support := d.support
      resistance := d.resistance
      source := .AI_GEN }
  | .error _ => fallbackInsight pair currentPrice change24h history

/-- The opposite account mode, for stating per-mode independence. -/
def otherMode : Mode → Mode
  | .TRIAL => .LIVE
  | .LIVE => .TRIAL

/-- The CLOSED copy of a trade produced by a settlement: status
CLOSED, with the exit price and realized pnl recorded. -/
def closedCopy (t : Trade) (exitP pnlV : ℚ) : Trade :=
  { t with status := .CLOSED, pnl := some pnlV, exitPrice := some exitP }

/-- The factory-default risk settings (`DEFAULT_RISK` in
`src/App.tsx`): stop-loss 2 percent, take-profit 5 percent, max
drawdown 15 percent, position cap 50, risk 2 percent. -/
def demoRisk : RiskSettings :=
  { defaultStopLoss := 2, defaultTakeProfit := 5, maxDrawdown := 15
    aiMaxPositionSize := 50, aiRiskPercent := 2 }

/-- A fresh TRIAL-mode session with the default balances of
`src/App.tsx` and no trades. -/
def demoState : AppState :=
  { trades := [], trialBalance := 10000, liveBalance := 9803/4
    consecutiveLosses := 0, dailyPnL := 0, isAutoPilot := true
    systemAlert := none, mode := .TRIAL, riskSettings := demoRisk }

/-- A quote table where BTC/USDT trades at 49000 and no other pair is
quoted. -/
def demoPrices : String → Option ℚ :=
  fun p => if p = "BTC/USDT" then some 49000 else none

/-- Risk settings with the stop-loss loosened to 10 percent, used to
exercise a configuration change after a trade has been opened. -/
def looseRisk : RiskSettings :=
  { demoRisk with defaultStopLoss := 10 }

/-- The scenario trade of the spec: a BUY of notional 1000 at entry
50000 in TRIAL mode, snapshotted at stop-loss 2 percent and take-profit
5 percent. -/
def demoTrade : Trade :=
  { id := 1, pair := "BTC/USDT", type := .BUY, entryPrice := 50000
    exitPrice := none, amount := 1000, status := .OPEN, pnl := none
    stopLoss := 49000, takeProfit := 52500, accountType := .TRIAL }

/-- The session holding only the scenario trade, after its notional has
been debited from the TRIAL balance. -/
def demoScenarioState : AppState :=
  { demoState with trades := [demoTrade], trialBalance := 9000 }

/-- An already-CLOSED copy of the scenario trade under a fresh id. -/
def demoClosedTrade : Trade :=
  { demoTrade with id := 5, status := .CLOSED, exitPrice := some 49000, pnl := some (-20) }

/-- A session whose only trade with id 5 is already CLOSED. -/
def demoClosedState : AppState :=
  { demoState with trades := [demoClosedTrade] }

/-- A session that has just suffered its third consecutive loss. -/
def demoLossState : AppState :=
  { demoState with consecutiveLosses := 3 }

/-- A session at a cumulative pnl of −16 percent of its balance. -/
def demoDrawdownState : AppState :=
  { demoState with dailyPnL := -1600 }

/-- A constant HOLD signal, standing in for an arbitrary trend
analyzer in the autopilot witnesses. -/
def demoAnalyze : List ℚ → Analysis :=
  fun _ => { action := .HOLD, confidence := 50, reason := "flat" }

/-- A constant position sizer for the autopilot witnesses. -/
def demoSizer : ℚ → ℚ → ℚ → ℚ → ℚ :=
  fun _ _ _ _ => 0

/-- A constant id supply for the autopilot witnesses. -/
def demoNewId : String → Nat :=
  fun _ => 0

/-- An empty price history for the autopilot witnesses. -/
def demoHistory : String → List ℚ :=
  fun _ => []

/-- An empty quote table. -/
def demoNoPrices : String → Option ℚ :=
  fun _ => none

/-- An advisory request that rejects quickly. -/
def demoReject : ExternalBehavior :=
  { arrival := 100, outcome := .reject }

/-- An advisory request that never answers within the timeout. -/
def demoSlow : ExternalBehavior :=
  { arrival := 10000, outcome := .reject }

@[simp] theorem creditMode_trades (m : Mode) (d : ℚ) (s : AppState) :
    (creditMode m d s).trades = s.trades := by
  cases m <;> rfl

@[simp] theorem creditMode_mode (m : Mode) (d : ℚ) (s : AppState) :
    (creditMode m d s).mode = s.mode := by
  cases m <;> rfl

@[simp] theorem creditMode_systemAlert (m : Mode) (d : ℚ) (s : AppState) :
    (creditMode m d s).systemAlert = s.systemAlert := by
  cases m <;> rfl

@[simp] theorem creditMode_isAutoPilot (m : Mode) (d : ℚ) (s : AppState) :
    (creditMode m d s).isAutoPilot = s.isAutoPilot := by
  cases m <;> rfl

@[simp] theorem creditMode_riskSettings (m : Mode) (d : ℚ) (s : AppState) :
    (creditMode m d s).riskSettings = s.riskSettings := by
  cases m <;> rfl

theorem modeBalance_creditMode (m m' : Mode) (d : ℚ) (s : AppState) :
    modeBalance m' (creditMode m d s) =
      modeBalance m' s + (if m' = m then d else 0) := by
  cases m <;> cases m' <;> simp [modeBalance, creditMode]

@[simp] theorem handleExecuteTrade_trades (newId : Nat) (pair : String)
    (type : TradeType) (amount price : ℚ) (s : AppState) :
    (handleExecuteTrade newId pair type amount price s).trades =
      newTradeOf newId pair type amount price s :: s.trades := by
  simp [handleExecuteTrade]

@[simp] theorem handleExecuteTrade_mode (newId : Nat) (pair : String)
    (type : TradeType) (amount price : ℚ) (s : AppState) :
    (handleExecuteTrade newId pair type amount price s).mode = s.mode := by
  simp [handleExecuteTrade]

@[simp] theorem handleExecuteTrade_systemAlert (newId : Nat) (pair : String)
    (type : TradeType) (amount price : ℚ) (s : AppState) :
    (handleExecuteTrade newId pair type amount price s).systemAlert = s.systemAlert := by
  simp [handleExecuteTrade]

@[simp] theorem handleExecuteTrade_isAutoPilot (newId : Nat) (pair : String)
    (type : TradeType) (amount price : ℚ) (s : AppState) :
    (handleExecuteTrade newId pair type amount price s).isAutoPilot = s.isAutoPilot := by
  simp [handleExecuteTrade]

@[simp] theorem handleExecuteTrade_riskSettings (newId : Nat) (pair : String)
    (type : TradeType) (amount price : ℚ) (s : AppState) :
    (handleExecuteTrade newId pair type amount price s).riskSettings = s.riskSettings := by
  simp [handleExecuteTrade]

theorem modeBalance_handleExecuteTrade (m : Mode) (newId : Nat) (pair : String)
    (type : TradeType) (amount price : ℚ) (s : AppState) :
    modeBalance m (handleExecuteTrade newId pair type amount price s) =
      modeBalance m s + (if m = s.mode then -amount else 0) := by
  have h : modeBalance m { s with trades := newTradeOf newId pair type amount price s :: s.trades }
      = modeBalance m s := by cases m <;> rfl
  simp [handleExecuteTrade, modeBalance_creditMode, h]

theorem modeBalance_close_update (m : Mode) (x : AppState) (a : List Trade) (b : ℚ) (c : Nat) :
    modeBalance m { x with trades := a, dailyPnL := b, consecutiveLosses := c } =
      modeBalance m x := by
  cases m <;> rfl

theorem otherMode_ne (m : Mode) : otherMode m ≠ m := by
  cases m <;> simp [otherMode]

theorem modeBalance_handleCloseTrade_cons (prices : String → Option ℚ) (tid : Nat)
    (m : Mode) (t : Trade) (rest : List Trade) (s : AppState)
    (htr : s.trades = t :: rest) (hid : t.id = tid) (hopen : t.status = .OPEN) :
    modeBalance m (handleCloseTrade prices tid s) =
      modeBalance m s + (if m = t.accountType then
        t.amount + pnlValueOf t.type t.entryPrice (quoteOr prices t.pair t.entryPrice) t.amount
      else 0) := by
  have hfind : (s.trades.findIdx fun x => x.id == tid) = 0 := by
    simp [htr, List.findIdx_cons, hid]
  have hget : s.trades[(s.trades.findIdx fun x => x.id == tid)]? = some t := by
    rw [hfind, htr]; simp
  simp only [handleCloseTrade, hget]
  rw [hopen]
  obtain ⟨i0, pa0, ty0, ep0, xp0, am0, st0, pn0, sl0, tp0, acct0⟩ := t
  cases m <;> cases acct0 <;> simp [modeBalance, creditMode]

theorem settleTick_singleton_closes (prices : String → Option ℚ) (s : AppState)
    (t : Trade) (htr : s.trades = [t]) (hopen : t.status = .OPEN)
    (htrig : pnlPercentOf t.type t.entryPrice (quoteOr prices t.pair t.entryPrice)
        ≤ -s.riskSettings.defaultStopLoss ∨
      s.riskSettings.defaultTakeProfit ≤
        pnlPercentOf t.type t.entryPrice (quoteOr prices t.pair t.entryPrice)) :
    (settleTick prices s).trades =
      [closedCopy t (quoteOr prices t.pair t.entryPrice)
        (pnlValueOf t.type t.entryPrice (quoteOr prices t.pair t.entryPrice) t.amount)] ∧
    modeBalance t.accountType (settleTick prices s) =
      modeBalance t.accountType s + t.amount +
        pnlValueOf t.type t.entryPrice (quoteOr prices t.pair t.entryPrice) t.amount := by
  simp only [settleTick, htr, List.foldl_cons, List.foldl_nil, settleStep, hopen]
  rw [if_pos htrig]
  constructor
  · simp [closedCopy, pnlValueOf]
  · obtain ⟨i0, pa0, ty0, ep0, xp0, am0, st0, pn0, sl0, tp0, acct0⟩ := t
    cases acct0 <;> (simp [modeBalance, creditMode, pnlValueOf]; ring)

theorem settleTick_singleton_skips (prices : String → Option ℚ) (s : AppState)
    (t : Trade) (htr : s.trades = [t]) (hopen : t.status = .OPEN)
    (hmiss : ¬(pnlPercentOf t.type t.entryPrice (quoteOr prices t.pair t.entryPrice)
        ≤ -s.riskSettings.defaultStopLoss ∨
      s.riskSettings.defaultTakeProfit ≤
        pnlPercentOf t.type t.entryPrice (quoteOr prices t.pair t.entryPrice))) :
    settleTick prices s = s := by
  simp only [settleTick, htr, List.foldl_cons, List.foldl_nil, settleStep, hopen]
  rw [if_neg hmiss]
  simp only [List.nil_append]
  rw [show ([t] : List Trade) = s.trades from htr.symm]
  rfl

/-- C2: for each account mode independently, the debit of `amount` at
open and the credit of `amount + pnlValue` at settle compose to a net
balance change of exactly `pnlValue`; the other mode's balance is
untouched. -/
theorem open_then_settle_net_pnl (newId : Nat) (pair : String) (type : TradeType)
    (amount price : ℚ) (prices : String → Option ℚ) (s : AppState) :
    modeBalance s.mode
        (handleCloseTrade prices newId (handleExecuteTrade newId pair type amount price s))
      = modeBalance s.mode s + pnlValueOf type price (quoteOr prices pair price) amount ∧
    modeBalance (otherMode s.mode)
        (handleCloseTrade prices newId (handleExecuteTrade newId pair type amount price s))
      = modeBalance (otherMode s.mode) s := by
  have htr : (handleExecuteTrade newId pair type amount price s).trades
      = newTradeOf newId pair type amount price s :: s.trades :=
    handleExecuteTrade_trades newId pair type amount price s
  constructor
  · rw [modeBalance_handleCloseTrade_cons prices newId s.mode _ _ _ htr rfl rfl,
      modeBalance_handleExecuteTrade]
    simp [newTradeOf]
    ring
  · rw [modeBalance_handleCloseTrade_cons prices newId (otherMode s.mode) _ _ _ htr rfl rfl,
      modeBalance_handleExecuteTrade]
    simp [newTradeOf, otherMode_ne s.mode]

/-- C10: the stored stop-loss and take-profit prices of a newly opened
trade use the long-side formulas `price * (1 - stopLossPct / 100)` and
`price * (1 + takeProfitPct / 100)` regardless of the side, so a SELL
trade's stop-loss lies below its entry and its take-profit above it. -/
theorem open_snapshots_long_side_thresholds (newId : Nat) (pair : String)
    (type : TradeType) (amount price : ℚ) (s : AppState)
    (hp : 0 < price) (hsl : 0 < s.riskSettings.defaultStopLoss)
    (htp : 0 < s.riskSettings.defaultTakeProfit) :
    ∃ t, (handleExecuteTrade newId pair type amount price s).trades = t :: s.trades ∧
      t.stopLoss = price * (1 - s.riskSettings.defaultStopLoss / 100) ∧
      t.takeProfit = price * (1 + s.riskSettings.defaultTakeProfit / 100) ∧
      (type = .SELL → t.stopLoss < t.entryPrice ∧ t.entryPrice < t.takeProfit) := by
  refine ⟨newTradeOf newId pair type amount price s,
    handleExecuteTrade_trades newId pair type amount price s, rfl, rfl, ?_⟩
  intro _
  constructor
  · show price * (1 - s.riskSettings.defaultStopLoss / 100) < price
    nlinarith [mul_pos hp hsl]
  · show price < price * (1 + s.riskSettings.defaultTakeProfit / 100)
    nlinarith [mul_pos hp htp]

/-- Witness for C10: a SELL of 1000 at price 200 under the default
risk settings stores stop-loss 196 (below entry) and take-profit 210
(above entry). -/
theorem open_snapshots_long_side_thresholds_witness :
    (0:ℚ) < 200 ∧ (0:ℚ) < demoState.riskSettings.defaultStopLoss ∧
    (0:ℚ) < demoState.riskSettings.defaultTakeProfit ∧
    (∃ t, (handleExecuteTrade 7 "BTC/USDT" TradeType.SELL 1000 200 demoState).trades
        = t :: demoState.trades ∧
      t.stopLoss = 200 * (1 - demoState.riskSettings.defaultStopLoss / 100) ∧
      t.takeProfit = 200 * (1 + demoState.riskSettings.defaultTakeProfit / 100) ∧
      (TradeType.SELL = TradeType.SELL →
        t.stopLoss < t.entryPrice ∧ t.entryPrice < t.takeProfit)) :=
  ⟨by norm_num, by norm_num [demoState, demoRisk], by norm_num [demoState, demoRisk],
    open_snapshots_long_side_thresholds 7 "BTC/USDT" TradeType.SELL 1000 200 demoState
      (by norm_num) (by norm_num [demoState, demoRisk]) (by norm_num [demoState, demoRisk])⟩

/-- C7 is refuted: `handleExecuteTrade` performs no validation of
`amount`; a call with the non-positive amount −5 still creates a trade
and still applies the debit (here a net credit of 5). -/
theorem open_nonpositive_counterexample :
    (-5 : ℚ) ≤ 0 ∧
    (handleExecuteTrade 1 "BTC/USDT" TradeType.BUY (-5) 100 demoState).trades
      ≠ demoState.trades ∧
    (handleExecuteTrade 1 "BTC/USDT" TradeType.BUY (-5) 100 demoState).trialBalance
      ≠ demoState.trialBalance := by
  refine ⟨by norm_num, ?_, ?_⟩
  · simp [handleExecuteTrade, creditMode, demoState, demoRisk]
  · simp [handleExecuteTrade, creditMode, demoState, demoRisk, newTradeOf]

/-- C7 (amended): a call to open with a non-positive amount is not
rejected: the trade is created and the balance of the current mode is
still debited by `amount`. -/
theorem open_accepts_nonpositive (newId : Nat) (pair : String) (type : TradeType)
    (amount price : ℚ) (s : AppState) (_h : amount ≤ 0) :
    (handleExecuteTrade newId pair type amount price s).trades.length
      = s.trades.length + 1 ∧
    currentBalance (handleExecuteTrade newId pair type amount price s)
      = currentBalance s - amount := by
  constructor
  · simp
  · rw [currentBalance, currentBalance, handleExecuteTrade_mode,
      modeBalance_handleExecuteTrade]
    simp [sub_eq_add_neg]

/-- Witness for C7 (amended): opening with amount −5 grows the trade
list and credits 5 to the TRIAL balance. -/
theorem open_accepts_nonpositive_witness :
    (-5 : ℚ) ≤ 0 ∧
    ((handleExecuteTrade 1 "BTC/USDT" TradeType.BUY (-5) 100 demoState).trades.length
        = demoState.trades.length + 1 ∧
      currentBalance (handleExecuteTrade 1 "BTC/USDT" TradeType.BUY (-5) 100 demoState)
        = currentBalance demoState - (-5)) :=
  ⟨by norm_num,
    open_accepts_nonpositive 1 "BTC/USDT" TradeType.BUY (-5) 100 demoState (by norm_num)⟩

/-- C1 is violated by the code: the settlement sweep reads the live
risk settings instead of the thresholds snapshotted on the trade.  A
BUY at 50000 under stop-loss 2 percent snapshots the stop price 49000;
after `updateRiskConfiguration` loosens the stop-loss to 10 percent,
the sweep at quote 49000 leaves the trade OPEN, while the identical
sweep without the configuration change closes it. -/
theorem settlement_uses_live_configuration :
    ((handleExecuteTrade 1 "BTC/USDT" TradeType.BUY 1000 50000 demoState).trades.map
        Trade.stopLoss = [49000]) ∧
    ((settleTick demoPrices (onUpdateRisk looseRisk
        (handleExecuteTrade 1 "BTC/USDT" TradeType.BUY 1000 50000 demoState))).trades.map
        Trade.status = [TradeStatus.OPEN]) ∧
    ((settleTick demoPrices
        (handleExecuteTrade 1 "BTC/USDT" TradeType.BUY 1000 50000 demoState)).trades.map
        Trade.status = [TradeStatus.CLOSED]) := by
  have h1 : (handleExecuteTrade 1 "BTC/USDT" TradeType.BUY 1000 50000 demoState).trades
      = [newTradeOf 1 "BTC/USDT" TradeType.BUY 1000 50000 demoState] := by
    rw [handleExecuteTrade_trades]; rfl
  refine ⟨?_, ?_, ?_⟩
  · rw [h1]
    simp [newTradeOf, demoState, demoRisk]
    norm_num
  · have h2 : (onUpdateRisk looseRisk
        (handleExecuteTrade 1 "BTC/USDT" TradeType.BUY 1000 50000 demoState)).trades
        = [newTradeOf 1 "BTC/USDT" TradeType.BUY 1000 50000 demoState] := h1
    have h4 := settleTick_singleton_skips demoPrices _ _ h2 rfl (by
      simp only [newTradeOf, onUpdateRisk, looseRisk, demoRisk, demoState,
        quoteOr, demoPrices, pnlPercentOf]
      norm_num)
    rw [h4, h2]
    rfl
  · have h3 := settleTick_singleton_closes demoPrices _ _ h1 rfl (by
      simp only [newTradeOf, handleExecuteTrade_riskSettings, demoState, demoRisk,
        quoteOr, demoPrices, pnlPercentOf]
      norm_num)
    rw [h3.1]
    rfl

/-- C4: `handleCloseTrade` on an id that is unknown, or whose first
matching trade is already CLOSED, returns the state unchanged — no
trade, balance, loss-counter or pnl mutation. -/
theorem manualClose_unknown_or_closed_noop (prices : String → Option ℚ)
    (tradeId : Nat) (s : AppState)
    (h : ∀ t ∈ s.trades, t.id = tradeId → t.status = .CLOSED) :
    handleCloseTrade prices tradeId s = s := by
  by_cases hlt : s.trades.findIdx (fun t => t.id == tradeId) < s.trades.length
  · have hmem : s.trades[s.trades.findIdx fun t => t.id == tradeId] ∈ s.trades :=
      List.getElem_mem hlt
    have hp : ((s.trades[s.trades.findIdx fun t => t.id == tradeId]).id == tradeId) = true :=
      @List.findIdx_getElem _ _ _ hlt
    have hclosed : (s.trades[s.trades.findIdx fun t => t.id == tradeId]).status = .CLOSED :=
      h _ hmem (by simpa using hp)
    have hx : s.trades[(s.trades.findIdx fun t => t.id == tradeId)]?
        = some (s.trades[s.trades.findIdx fun t => t.id == tradeId]) :=
      List.getElem?_eq_getElem hlt
    simp only [handleCloseTrade, hx, hclosed]
    simp
  · have hx : s.trades[(s.trades.findIdx fun t => t.id == tradeId)]? = none :=
      List.getElem?_eq_none (le_of_not_lt hlt)
    simp only [handleCloseTrade, hx]

/-- Witness for C4: closing id 5 in a session whose only trade with
that id is already CLOSED changes nothing. -/
theorem manualClose_unknown_or_closed_noop_witness :
    (∀ t ∈ demoClosedState.trades, t.id = 5 → t.status = TradeStatus.CLOSED) ∧
    handleCloseTrade demoPrices 5 demoClosedState = demoClosedState :=
  ⟨by decide, manualClose_unknown_or_closed_noop demoPrices 5 demoClosedState (by decide)⟩

/-- C3: a settlement of an OPEN trade computes
`pnlPercent = sign(side) * (exitPrice - entryPrice) / entryPrice * 100`
and `pnlValue = amount * (pnlPercent / 100)`, credits
`amount + pnlValue` to the trade's mode balance, records the exit
price and pnl, and sets the status to CLOSED. -/
theorem settlement_formula_and_credit (prices : String → Option ℚ) (s : AppState)
    (t : Trade) (htr : s.trades = [t]) (hopen : t.status = .OPEN)
    (htrig : pnlPercentOf t.type t.entryPrice (quoteOr prices t.pair t.entryPrice)
        ≤ -s.riskSettings.defaultStopLoss ∨
      s.riskSettings.defaultTakeProfit ≤
        pnlPercentOf t.type t.entryPrice (quoteOr prices t.pair t.entryPrice)) :
    (settleTick prices s).trades =
      [closedCopy t (quoteOr prices t.pair t.entryPrice)
        (pnlValueOf t.type t.entryPrice (quoteOr prices t.pair t.entryPrice) t.amount)] ∧
    modeBalance t.accountType (settleTick prices s) =
      modeBalance t.accountType s + t.amount +
        pnlValueOf t.type t.entryPrice (quoteOr prices t.pair t.entryPrice) t.amount ∧
    pnlPercentOf t.type t.entryPrice (quoteOr prices t.pair t.entryPrice) =
      (if t.type = .BUY then (1 : ℚ) else -1) *
        ((quoteOr prices t.pair t.entryPrice) - t.entryPrice) / t.entryPrice * 100 := by
  obtain ⟨hc1, hc2⟩ := settleTick_singleton_closes prices s t htr hopen htrig
  refine ⟨hc1, hc2, ?_⟩
  cases hty : t.type <;> simp [pnlPercentOf, hty] <;> ring

/-- Witness for C3, the scenario of the spec: a BUY of 1000 at entry
50000 settled at quote 49000 under stop-loss 2 percent closes with
pnl −20 and credits 980, leaving the TRIAL balance at 9980. -/
theorem settlement_formula_and_credit_witness :
    demoScenarioState.trades = [demoTrade] ∧
    demoTrade.status = TradeStatus.OPEN ∧
    ((settleTick demoPrices demoScenarioState).trades =
      [closedCopy demoTrade (quoteOr demoPrices demoTrade.pair demoTrade.entryPrice)
        (pnlValueOf demoTrade.type demoTrade.entryPrice
          (quoteOr demoPrices demoTrade.pair demoTrade.entryPrice) demoTrade.amount)] ∧
     modeBalance demoTrade.accountType (settleTick demoPrices demoScenarioState) =
      modeBalance demoTrade.accountType demoScenarioState + demoTrade.amount +
        pnlValueOf demoTrade.type demoTrade.entryPrice
          (quoteOr demoPrices demoTrade.pair demoTrade.entryPrice) demoTrade.amount ∧
     pnlPercentOf demoTrade.type demoTrade.entryPrice
        (quoteOr demoPrices demoTrade.pair demoTrade.entryPrice) =
      (if demoTrade.type = .BUY then (1 : ℚ) else -1) *
        ((quoteOr demoPrices demoTrade.pair demoTrade.entryPrice) - demoTrade.entryPrice) /
          demoTrade.entryPrice * 100) ∧
    pnlValueOf demoTrade.type demoTrade.entryPrice
      (quoteOr demoPrices demoTrade.pair demoTrade.entryPrice) demoTrade.amount = -20 ∧
    (settleTick demoPrices demoScenarioState).trialBalance = 9980 := by
  have htrig : pnlPercentOf demoTrade.type demoTrade.entryPrice
      (quoteOr demoPrices demoTrade.pair demoTrade.entryPrice)
        ≤ -demoScenarioState.riskSettings.defaultStopLoss ∨
      demoScenarioState.riskSettings.defaultTakeProfit ≤
        pnlPercentOf demoTrade.type demoTrade.entryPrice
          (quoteOr demoPrices demoTrade.pair demoTrade.entryPrice) := by
    simp only [demoTrade, demoScenarioState, demoState, demoRisk, quoteOr,
      demoPrices, pnlPercentOf]
    norm_num
  have happ := settlement_formula_and_credit demoPrices demoScenarioState demoTrade
    rfl rfl htrig
  have hpnl : pnlValueOf demoTrade.type demoTrade.entryPrice
      (quoteOr demoPrices demoTrade.pair demoTrade.entryPrice) demoTrade.amount = -20 := by
    simp only [demoTrade, quoteOr, demoPrices, pnlValueOf, pnlPercentOf]
    norm_num
  refine ⟨rfl, rfl, happ, hpnl, ?_⟩
  have hb : modeBalance Mode.TRIAL (settleTick demoPrices demoScenarioState) =
      modeBalance Mode.TRIAL demoScenarioState + demoTrade.amount +
        pnlValueOf demoTrade.type demoTrade.entryPrice
          (quoteOr demoPrices demoTrade.pair demoTrade.entryPrice) demoTrade.amount :=
    happ.2.1
  rw [show (settleTick demoPrices demoScenarioState).trialBalance =
      modeBalance Mode.TRIAL (settleTick demoPrices demoScenarioState) from rfl, hb, hpnl]
  norm_num [modeBalance, demoScenarioState, demoState, demoTrade]

theorem autopilotStep_systemAlert (analyze : List ℚ → Analysis)
    (sizer : ℚ → ℚ → ℚ → ℚ → ℚ) (newId : String → Nat) (history : String → List ℚ)
    (prices : String → Option ℚ) (s st : AppState) (pair : String) :
    (autopilotStep analyze sizer newId history prices s st pair).systemAlert
      = st.systemAlert := by
  simp only [autopilotStep]
  repeat' split
  all_goals simp

theorem autopilotStep_isAutoPilot (analyze : List ℚ → Analysis)
    (sizer : ℚ → ℚ → ℚ → ℚ → ℚ) (newId : String → Nat) (history : String → List ℚ)
    (prices : String → Option ℚ) (s st : AppState) (pair : String) :
    (autopilotStep analyze sizer newId history prices s st pair).isAutoPilot
      = st.isAutoPilot := by
  simp only [autopilotStep]
  repeat' split
  all_goals simp

theorem autopilotFold_systemAlert (analyze : List ℚ → Analysis)
    (sizer : ℚ → ℚ → ℚ → ℚ → ℚ) (newId : String → Nat) (history : String → List ℚ)
    (prices : String → Option ℚ) (s : AppState) (pairs : List String) :
    ∀ st : AppState,
      ((pairs.foldl (autopilotStep analyze sizer newId history prices s) st).systemAlert
        = st.systemAlert) := by
  induction pairs with
  | nil => intro st; rfl
  | cons p ps ih =>
    intro st
    rw [List.foldl_cons, ih, autopilotStep_systemAlert]

/-- C5: on every autopilot tick the risk gate runs before any entry
decision: whenever `consecutiveLosses` has reached 3, the tick forces
autopilot off, raises the consecutive-loss alert and opens no trade,
for every trend analyzer and sizer; and on a tick with fewer than 3
consecutive losses the consecutive-loss alert is never newly raised. -/
theorem autopilot_losses_gate (analyze : List ℚ → Analysis)
    (sizer : ℚ → ℚ → ℚ → ℚ → ℚ) (newId : String → Nat) (history : String → List ℚ)
    (prices : String → Option ℚ) (s : AppState) :
    (3 ≤ s.consecutiveLosses →
      (autopilotTick analyze sizer newId history prices s).isAutoPilot = false ∧
      (autopilotTick analyze sizer newId history prices s).systemAlert
        = some Alert.maxLosses ∧
      (autopilotTick analyze sizer newId history prices s).trades = s.trades) ∧
    (s.consecutiveLosses < 3 →
      (autopilotTick analyze sizer newId history prices s).systemAlert
          = some Alert.maxLosses →
      s.systemAlert = some Alert.maxLosses) := by
  constructor
  · intro h
    simp [autopilotTick, h]
  · intro h halert
    have hn : ¬ 3 ≤ s.consecutiveLosses := by omega
    by_cases hd : s.dailyPnL / currentBalance s * 100 ≤ -s.riskSettings.maxDrawdown
    · simp [autopilotTick, hn, hd] at halert
    · simp only [autopilotTick, hn, if_false, ite_false, hd] at halert
      rw [autopilotFold_systemAlert] at halert
      exact halert

/-- Witness for C5: at exactly 3 consecutive losses the tick (with an
arbitrary constant analyzer) disables autopilot, raises the
consecutive-loss alert and opens nothing. -/
theorem autopilot_losses_gate_witness :
    3 ≤ demoLossState.consecutiveLosses ∧
    ((autopilotTick demoAnalyze demoSizer demoNewId demoHistory demoNoPrices
        demoLossState).isAutoPilot = false ∧
      (autopilotTick demoAnalyze demoSizer demoNewId demoHistory demoNoPrices
        demoLossState).systemAlert = some Alert.maxLosses ∧
      (autopilotTick demoAnalyze demoSizer demoNewId demoHistory demoNoPrices
        demoLossState).trades = demoLossState.trades) :=
  ⟨by decide,
    (autopilot_losses_gate demoAnalyze demoSizer demoNewId demoHistory demoNoPrices
      demoLossState).1 (by decide)⟩

/-- C6: on a tick with fewer than 3 consecutive losses, if the
cumulative pnl over the current balance times 100 is at or below the
negated max-drawdown percentage, autopilot is forced off, the drawdown
alert is raised and no autonomous open occurs. -/
theorem autopilot_drawdown_gate (analyze : List ℚ → Analysis)
    (sizer : ℚ → ℚ → ℚ → ℚ → ℚ) (newId : String → Nat) (history : String → List ℚ)
    (prices : String → Option ℚ) (s : AppState)
    (hl : s.consecutiveLosses < 3)
    (hd : s.dailyPnL / currentBalance s * 100 ≤ -s.riskSettings.maxDrawdown) :
    (autopilotTick analyze sizer newId history prices s).isAutoPilot = false ∧
    (autopilotTick analyze sizer newId history prices s).systemAlert
      = some Alert.drawdown ∧
    (autopilotTick analyze sizer newId history prices s).trades = s.trades := by
  have hn : ¬ 3 ≤ s.consecutiveLosses := by omega
  simp [autopilotTick, hn, hd]

/-- Witness for C6: with maxDrawdownPct 15, a cumulative pnl of −1600
against a balance of 10000 (−16 percent) blocks the tick: autopilot is
forced off with the drawdown alert and no trade is opened. -/
theorem autopilot_drawdown_gate_witness :
    demoDrawdownState.consecutiveLosses < 3 ∧
    (demoDrawdownState.dailyPnL / currentBalance demoDrawdownState * 100
      ≤ -demoDrawdownState.riskSettings.maxDrawdown) ∧
    ((autopilotTick demoAnalyze demoSizer demoNewId demoHistory demoNoPrices
        demoDrawdownState).isAutoPilot = false ∧
      (autopilotTick demoAnalyze demoSizer demoNewId demoHistory demoNoPrices
        demoDrawdownState).systemAlert = some Alert.drawdown ∧
      (autopilotTick demoAnalyze demoSizer demoNewId demoHistory demoNoPrices
        demoDrawdownState).trades = demoDrawdownState.trades) :=
  ⟨by decide,
    by norm_num [demoDrawdownState, demoState, demoRisk, currentBalance, modeBalance],
    autopilot_drawdown_gate demoAnalyze demoSizer demoNewId demoHistory demoNoPrices
      demoDrawdownState (by decide)
      (by norm_num [demoDrawdownState, demoState, demoRisk, currentBalance, modeBalance])⟩

/-- C8: `generateMarketInsight` is total and never surfaces the
underlying failure: whatever the external request does, the result is
an Insight tagged with its provenance; the race settles no later than
the 6500 ms timer, and a request that rejects or arrives at or after
the timeout is answered by the fallback, not awaited. -/
theorem generateInsight_always_returns (b : ExternalBehavior) (pair : String)
    (currentPrice change24h : Option ℚ) (history : Option (List ℚ)) :
    ((generateMarketInsight b pair currentPrice change24h history).source
        = InsightSource.AI_GEN ∨
      (generateMarketInsight b pair currentPrice change24h history).source
        = InsightSource.QUANT_ENGINE) ∧
    raceSettleTime b ≤ TIMEOUT_MS ∧
    (TIMEOUT_MS ≤ b.arrival →
      (generateMarketInsight b pair currentPrice change24h history).source
        = InsightSource.QUANT_ENGINE) ∧
    (∀ e, raceAdvisory b = Except.error e →
      (generateMarketInsight b pair currentPrice change24h history).source
        = InsightSource.QUANT_ENGINE) := by
  refine ⟨?_, ?_, ?_, ?_⟩
  · cases hr : raceAdvisory b with
    | ok d => exact Or.inl (by simp [generateMarketInsight, hr])
    | error e => exact Or.inr (by simp [generateMarketInsight, hr, fallbackInsight])
  · exact min_le_right b.arrival TIMEOUT_MS
  · intro ht
    have hr : raceAdvisory b = Except.error AdvErr.latencyTimeout := by
      rw [raceAdvisory, if_neg (not_lt.mpr ht)]
    simp [generateMarketInsight, hr, fallbackInsight]
  · intro e hr
    simp [generateMarketInsight, hr, fallbackInsight]

/-- Witness for C8: a request that would only settle at 10000 ms is
cut off by the 6500 ms timer and answered by the tagged fallback. -/
theorem generateInsight_always_returns_witness :
    TIMEOUT_MS ≤ demoSlow.arrival ∧
    ((generateMarketInsight demoSlow "BTC/USDT" none none none).source
        = InsightSource.AI_GEN ∨
      (generateMarketInsight demoSlow "BTC/USDT" none none none).source
        = InsightSource.QUANT_ENGINE) ∧
    raceSettleTime demoSlow ≤ TIMEOUT_MS ∧
    (generateMarketInsight demoSlow "BTC/USDT" none none none).source
      = InsightSource.QUANT_ENGINE := by
  have ht : TIMEOUT_MS ≤ demoSlow.arrival := by norm_num [TIMEOUT_MS, demoSlow]
  have h := generateInsight_always_returns demoSlow "BTC/USDT" none none none
  exact ⟨ht, h.1, h.2.1, h.2.2.1 ht⟩

/-- C9 is refuted on the stated level formulas: the fallback support
level is the integer floor of `price * (1 - v)`, not `price * (1 - v)`
itself — at price 100.5 on a non-BTC pair, the support is 96 while
`100.5 * 0.96 = 96.48`. -/
theorem fallback_levels_counterexample :
    (generateMarketInsight demoReject "ETH/USDT" (some (201/2)) (some 0) none).support
      ≠ (201/2 : ℚ) * (1 - volatilityOf "ETH/USDT") := by
  have hr : raceAdvisory demoReject = Except.error AdvErr.requestFailed := by
    rw [raceAdvisory, if_pos (by norm_num [demoReject, TIMEOUT_MS])]
    rfl
  have hBTC : includesStr "ETH/USDT" "BTC" = false := by decide
  simp only [generateMarketInsight, hr, fallbackInsight, volatilityOf, hBTC,
    Bool.false_eq_true, if_false, ite_false]
  norm_num

/-- C9 (amended): on every failure path of `generateMarketInsight`
with fewer than 20 history points, the action follows the ±2 percent
24h-change thresholds, the confidence is exactly 70, and the support
and resistance levels are the integer floors of
`price * (1 - v)` and `price * (1 + v)` for the per-asset volatility
`v`. -/
theorem fallback_heuristic_floor (b : ExternalBehavior) (pair : String)
    (p changeVal : ℚ) (history : Option (List ℚ)) (e : AdvErr)
    (hfail : raceAdvisory b = Except.error e) (hp : p ≠ 0)
    (hh : ∀ h, history = some h → h.length < 20) :
    (generateMarketInsight b pair (some p) (some changeVal) history).action
      = (if 2 < changeVal then ActionKind.BUY
          else if changeVal < -2 then ActionKind.SELL else ActionKind.HOLD) ∧
    (generateMarketInsight b pair (some p) (some changeVal) history).confidence = 70 ∧
    (generateMarketInsight b pair (some p) (some changeVal) history).support
      = ((⌊p * (1 - volatilityOf pair)⌋ : ℤ) : ℚ) ∧
    (generateMarketInsight b pair (some p) (some changeVal) history).resistance
      = ((⌊p * (1 + volatilityOf pair)⌋ : ℤ) : ℚ) := by
  simp only [generateMarketInsight, hfail]
  cases history with
  | none => simp [fallbackInsight, basicHeuristic, hp]
  | some hlist =>
    have hlen : ¬ 20 ≤ hlist.length := by
      have := hh hlist rfl
      omega
    simp [fallbackInsight, basicHeuristic, hp, hlen]

/-- Witness for C9 (amended): a rejected request with no history and a
+3 percent 24h change yields BUY at confidence 70 with floored levels
96 and 104 at price 100.5 on a non-BTC pair. -/
theorem fallback_heuristic_floor_witness :
    raceAdvisory demoReject = Except.error AdvErr.requestFailed ∧
    ((201/2 : ℚ) ≠ 0) ∧
    ((generateMarketInsight demoReject "ETH/USDT" (some (201/2)) (some 3) none).action
        = (if (2:ℚ) < 3 then ActionKind.BUY
            else if (3:ℚ) < -2 then ActionKind.SELL else ActionKind.HOLD) ∧
      (generateMarketInsight demoReject "ETH/USDT" (some (201/2)) (some 3) none).confidence
        = 70 ∧
      (generateMarketInsight demoReject "ETH/USDT" (some (201/2)) (some 3) none).support
        = ((⌊(201/2 : ℚ) * (1 - volatilityOf "ETH/USDT")⌋ : ℤ) : ℚ) ∧
      (generateMarketInsight demoReject "ETH/USDT" (some (201/2)) (some 3) none).resistance
        = ((⌊(201/2 : ℚ) * (1 + volatilityOf "ETH/USDT")⌋ : ℤ) : ℚ)) := by
  have hr : raceAdvisory demoReject = Except.error AdvErr.requestFailed := by
    rw [raceAdvisory, if_pos (by norm_num [demoReject, TIMEOUT_MS])]
    rfl
  refine ⟨hr, by norm_num, ?_⟩
  exact fallback_heuristic_floor demoReject "ETH/USDT" (201/2) 3 none
    AdvErr.requestFailed hr (by norm_num) (by intro h hc; cases hc)

end Seannai
